import Mathlib

/-!
Shallow embedding of `github_downloader.py` (single-repository variant) and
`Experimantal/github_downloader.py` (multi-repository variant): a periodic
GitHub release / branch-head downloader with persisted state files used for
idempotence checks.

Filesystem contents are modelled as `Option String` (the content of a state
file, `none` when absent); network behaviour is an environment parameter
(the fetch result, and an outcome per asset download); each sync function
returns the new state-file content together with the ordered trace of GET
requests it issued and whether an exception escaped it.
-/

namespace GithubDownloader

/-- A release asset, as read from the JSON of `GET /releases/latest`:
`asset['browser_download_url']` and `asset['name']`. -/
structure Asset where
  browser_download_url : String
  name : String
  deriving DecidableEq, Repr

/-- A remote release: `tag_name`, `target_commitish` and the asset list. -/
structure Release where
  tag_name : String
  target_commitish : String
  assets : List Asset
  deriving DecidableEq, Repr

/-- A remote commit, as read from `GET /commits/{branch}`: its `sha`. -/
structure Commit where
  sha : String
  deriving DecidableEq, Repr

/-- Result of a metadata fetch (`get_latest_release` / `get_latest_commit`):
the parsed JSON, or an `HTTPError` from `raise_for_status()` (non-2xx), or a
network-level `RequestException` (connection failure etc.). -/
inductive FetchResult (α : Type)
  | ok (v : α)
  | httpError
  | networkError
  deriving DecidableEq, Repr

/-- Outcome of one `download_file(url, dest)` call: the streamed GET and the
local write both succeed; or the request fails with a
`requests.exceptions.RequestException` (caught and logged inside
`download_file`); or the local file write raises (e.g. `OSError`), which
`download_file` does not catch. -/
inductive DLOutcome
  | ok
  | requestError
  | writeError
  deriving DecidableEq, Repr

/-- Python exceptions that the embedded code can raise. -/
inductive PyExn
  | httpError      -- requests.exceptions.HTTPError
  | requestExn     -- other requests.exceptions.RequestException
  | valueError     -- e.g. unpacking `split(',')` into two names
  | osError        -- local file-system error
  deriving DecidableEq, Repr

/-- Whether an exception is caught by `except requests.exceptions.HTTPError`. -/
def PyExn.isHTTPError : PyExn → Bool
  | .httpError => true
  | _ => false

/-- Whether an exception is caught by `except Exception`: every modelled
exception class subclasses `Exception`. -/
def PyExn.isException : PyExn → Bool := fun _ => true

/-- Classification of one sync attempt, following the spec contract
`{unchanged, updated, failed}`. -/
inductive SyncResult
  | unchanged
  | updated
  | failed
  deriving DecidableEq, Repr

/-! ### String helpers mirroring the Python string operations -/

/-- Python `s.strip()`: drop surrounding whitespace characters. -/
def trimChars (cs : List Char) : List Char :=
  ((cs.dropWhile Char.isWhitespace).reverse.dropWhile Char.isWhitespace).reverse

/-- Python `s.split(sep)` for a one-character separator, on the character
list: always at least one part, `"".split(sep) == ['']`. -/
def splitCharAux (sep : Char) : List Char → List (List Char)
  | [] => [[]]
  | c :: cs =>
    if c = sep then [] :: splitCharAux sep cs
    else
      match splitCharAux sep cs with
      | [] => [[c]]
      | h :: t => (c :: h) :: t

/-- Python `s.split(sep)` for a one-character separator. -/
def splitChar (sep : Char) (s : String) : List String :=
  (splitCharAux sep s.data).map String.mk

/-- Python `content.strip().split(',')`. -/
def stripSplitComma (content : String) : List String :=
  (splitCharAux ',' (trimChars content.data)).map String.mk

/-- The two-name unpacking `a, b = content.strip().split(',')`:
succeeds exactly when the split yields two elements, otherwise the
assignment raises `ValueError`. -/
def parseStatePair (content : String) : Option (String × String) :=
  match stripSplitComma content with
  | [a, b] => some (a, b)
  | _ => none

/-- Content written to a version file on a release update:
`f"{latest_version},{latest_commit_hash}"` (no trailing newline). -/
def release_state_content (tag commit : String) : String :=
  tag ++ "," ++ commit

/-- Content written to the branch version file:
`f"{branch},{latest_commit_hash}"` (no trailing newline). -/
def branch_state_content (branch sha : String) : String :=
  branch ++ "," ++ sha

/-! ### URL parsing (`urlparse` path extraction and `parse_github_url`) -/

/-- Characters after the first `://`, when the URL has a scheme part. -/
def dropScheme : List Char → Option (List Char)
  | [] => none
  | ':' :: '/' :: '/' :: rest => some rest
  | _ :: rest => dropScheme rest

/-- The path component of a URL, as `urllib.parse.urlparse(url).path` yields
it for the `scheme://host/path` URLs this program handles: everything from
the first slash after the host, `""` when there is none; a URL without a
scheme is all path. -/
def urlPath (url : String) : String :=
  match dropScheme url.data with
  | some rest => String.mk (rest.dropWhile (· ≠ '/'))
  | none => url

/-- Python `s.strip("/")`: drop leading and trailing `/` characters. -/
def stripSlashes (s : String) : String :=
  String.mk (((s.data.dropWhile (· = '/')).reverse.dropWhile (· = '/')).reverse)

/-- The path segments the source compares against 2:
`parsed_url.path.strip("/").split("/")`. -/
def pathParts (repo_url : String) : List String :=
  splitChar '/' (stripSlashes (urlPath repo_url))

/-- `parse_github_url` of the multi-repository variant: owner and repo are
the first two path segments; fewer than two segments is rejected
(`return None, None`, modelled as `none`). -/
def parse_github_url (repo_url : String) : Option (String × String) :=
  match pathParts repo_url with
  | owner :: repo :: _ => some (owner, repo)
  | _ => none

/-- `get_github_api_url`: `f"https://api.github.com/repos/{owner}/{repo}"`. -/
def get_github_api_url (owner repo : String) : String :=
  "https://api.github.com/repos/" ++ owner ++ "/" ++ repo

/-- Single-repository variant, `check_and_download_master` line 136:
`f"https://github.com/{GITHUB_OWNER}/{GITHUB_REPO}/archive/refs/heads/master.zip"`. -/
def master_zip_url (owner repo : String) : String :=
  "https://github.com/" ++ owner ++ "/" ++ repo ++ "/archive/refs/heads/master.zip"

/-- Multi-repository variant, `check_and_download_master` line 152: the URL is
built from `parse_github_url(api_url)` — parsing the API URL, not the
repository web URL; a `None` component renders as the string "None" inside
the f-string. -/
def exp_master_zip_url (api_url branch : String) : String :=
  let p := parse_github_url api_url
  let a := (p.map Prod.fst).getD "None"
  let b := (p.map Prod.snd).getD "None"
  "https://github.com/" ++ a ++ "/" ++ b ++ "/archive/refs/heads/" ++ branch ++ ".zip"

/-- Archive destination file name used by both variants:
`f"{repo}_master.zip"` resp. `f"{repo}_{branch}.zip"` placed in the
repository directory. -/
def master_zip_name (repo branch : String) : String :=
  repo ++ "_" ++ branch ++ ".zip"

/-! ### Release sync (`check_and_download_release`) -/

/-- Network environment of one release sync attempt: the result of the
`GET {api_url}/releases/latest` metadata fetch, and the outcome of
`download_file` for each asset. -/
structure RelEnv where
  fetch : FetchResult Release
  dl : Asset → DLOutcome

/-- Observable outcome of one `check_and_download_release` call: the result
classification, the content of the release version file afterwards, the
ordered GET requests issued, the asset files successfully written, and
whether an exception escaped the call. -/
structure RelOut where
  res : SyncResult
  state : Option String
  gets : List String
  written : List String
  raised : Bool
  deriving DecidableEq, Repr

/-- `download_release_assets`: the `for asset in release.get('assets', [])`
loop. Each iteration issues a GET to the asset's `browser_download_url` via
`download_file`; a `RequestException` is caught and logged inside
`download_file` so the loop continues; a local write error propagates out of
`download_file` and aborts the loop. Returns (GETs issued, files written,
escaped exception). -/
def download_release_assets (dl : Asset → DLOutcome) :
    List Asset → List String × List String × Option PyExn
  | [] => ([], [], none)
  | a :: rest =>
    match dl a with
    | .ok =>
      let (g, w, e) := download_release_assets dl rest
      (a.browser_download_url :: g, a.name :: w, e)
    | .requestError =>
      let (g, w, e) := download_release_assets dl rest
      (a.browser_download_url :: g, w, e)
    | .writeError => ([a.browser_download_url], [], some .osError)

/-- The `try:` body of `check_and_download_release` (lines 92–114): fetch the
latest release (one GET, raising on failure), compare `(tag_name,
target_commitish)` to the persisted pair when the version file exists
(unpacking its stripped comma-split content into two names, a `ValueError`
when that does not yield exactly two parts), download all assets otherwise,
then overwrite the version file. `generate_release_notes([])` between the
loop and the state write is the source's placeholder writing a constant
notes file; it touches no modelled state. Returns
(GETs, files written, version-file content, result-or-exception). -/
def releaseSyncBody (api_url : String) (env : RelEnv) (st : Option String) :
    List String × List String × Option String × Except PyExn SyncResult :=
  let fetchGet := api_url ++ "/releases/latest"
  match env.fetch with
  | .httpError => ([fetchGet], [], st, .error .httpError)
  | .networkError => ([fetchGet], [], st, .error .requestExn)
  | .ok rel =>
    let check : Except PyExn Bool :=
      match st with
      | none => .ok false
      | some content =>
        match parseStatePair content with
        | none => .error .valueError
        | some (v, h) => .ok (v == rel.tag_name && h == rel.target_commitish)
    match check with
    | .error e => ([fetchGet], [], st, .error e)
    | .ok true => ([fetchGet], [], st, .ok .unchanged)
    | .ok false =>
      let (g, w, e) := download_release_assets env.dl rel.assets
      match e with
      | some exn => (fetchGet :: g, w, st, .error exn)
      | none =>
        (fetchGet :: g, w,
         some (release_state_content rel.tag_name rel.target_commitish),
         .ok .updated)

/-- `check_and_download_release`: the body wrapped in
`except requests.exceptions.HTTPError` / `except Exception`, both of which
log and fall through; an exception caught by neither would escape
(`raised := true`). -/
def check_and_download_release (api_url : String) (env : RelEnv)
    (st : Option String) : RelOut :=
  match releaseSyncBody api_url env st with
  | (g, w, st2, .ok r) => ⟨r, st2, g, w, false⟩
  | (g, w, st2, .error e) =>
    if e.isHTTPError then ⟨.failed, st2, g, w, false⟩
    else if e.isException then ⟨.failed, st2, g, w, false⟩
    else ⟨.failed, st2, g, w, true⟩

/-! ### Branch sync (`check_and_download_master`) -/

/-- Network environment of one branch sync attempt: the result of the
`GET {api_url}/commits/{branch}` fetch and the outcome of the single archive
`download_file` call. -/
structure BranchEnv where
  fetch : FetchResult Commit
  dl : DLOutcome

/-- Observable outcome of one `check_and_download_master` call. -/
structure BranchOut where
  res : SyncResult
  state : Option String
  gets : List String
  raised : Bool
  deriving DecidableEq, Repr

/-- The `try:` body of `check_and_download_master`, over the branch name and
the archive URL its caller variant constructs: fetch the latest commit,
compare its `sha` against the second component of the persisted pair
(`_, current_hash = ...split(',')`, a `ValueError` unless exactly two
parts), otherwise download the archive and overwrite the version file.
`download_file` swallows its own `RequestException`, so the state write
happens even when the archive GET failed; only a local write error
(escaping `download_file`) skips it. -/
def masterSyncBody (api_url branch zipUrl : String) (env : BranchEnv)
    (st : Option String) :
    List String × Option String × Except PyExn SyncResult :=
  let fetchGet := api_url ++ "/commits/" ++ branch
  match env.fetch with
  | .httpError => ([fetchGet], st, .error .httpError)
  | .networkError => ([fetchGet], st, .error .requestExn)
  | .ok c =>
    let check : Except PyExn Bool :=
      match st with
      | none => .ok false
      | some content =>
        match parseStatePair content with
        | none => .error .valueError
        | some (_, h) => .ok (h == c.sha)
    match check with
    | .error e => ([fetchGet], st, .error e)
    | .ok true => ([fetchGet], st, .ok .unchanged)
    | .ok false =>
      match env.dl with
      | .writeError => ([fetchGet, zipUrl], st, .error .osError)
      | _ => ([fetchGet, zipUrl], some (branch_state_content branch c.sha), .ok .updated)

/-- The shared `except` wrapping of `check_and_download_master`. -/
def masterSyncCore (api_url branch zipUrl : String) (env : BranchEnv)
    (st : Option String) : BranchOut :=
  match masterSyncBody api_url branch zipUrl env st with
  | (g, st2, .ok r) => ⟨r, st2, g, false⟩
  | (g, st2, .error e) =>
    if e.isHTTPError then ⟨.failed, st2, g, false⟩
    else if e.isException then ⟨.failed, st2, g, false⟩
    else ⟨.failed, st2, g, true⟩

/-- Single-repository `check_and_download_master`: branch fixed to `master`,
archive URL built from the global owner/repo against the web host. -/
def check_and_download_master (owner repo : String) (env : BranchEnv)
    (st : Option String) : BranchOut :=
  masterSyncCore (get_github_api_url owner repo) "master"
    (master_zip_url owner repo) env st

/-- Multi-repository `check_and_download_master`: archive URL built from
`parse_github_url(api_url)` (line 152). -/
def exp_check_and_download_master (api_url branch : String) (env : BranchEnv)
    (st : Option String) : BranchOut :=
  masterSyncCore api_url branch (exp_master_zip_url api_url branch) env st

/-! ### Orchestration -/

/-- The two persisted state files of one repository. -/
structure RepoState where
  releaseState : Option String
  masterState : Option String
  deriving DecidableEq, Repr

/-- Steps the orchestration performs for one repository, in order. -/
inductive Task
  | branchSync
  | releaseSync
  | scheduleDaily
  deriving DecidableEq, Repr

/-- Single-repository `initial_download`: calls `check_and_download_master()`
and then `check_and_download_release()`, unconditionally. Returns the new
state pair and the sync steps in execution order. -/
def initial_download (owner repo : String) (benv : BranchEnv) (renv : RelEnv)
    (st : RepoState) : RepoState × List Task :=
  let m := check_and_download_master owner repo benv st.masterState
  let r := check_and_download_release (get_github_api_url owner repo) renv
    st.releaseState
  (⟨r.state, m.state⟩, [Task.branchSync, Task.releaseSync])

/-- Single-repository `main` up to entering the scheduler loop: run
`initial_download` iff either version file is absent, then register the one
daily task. Returns the state pair and the ordered trace of steps. -/
def main_first_run (owner repo : String) (benv : BranchEnv) (renv : RelEnv)
    (st : RepoState) : RepoState × List Task :=
  if st.masterState.isNone || st.releaseState.isNone then
    let (st2, tr) := initial_download owner repo benv renv st
    (st2, tr ++ [Task.scheduleDaily])
  else (st, [Task.scheduleDaily])

/-- Result of `process_repository` for one configured URL: the state pair
afterwards, every HTTP GET issued for this repository in order, the steps
run, and whether the daily task was registered. -/
structure RepoRun where
  state : RepoState
  gets : List String
  tasks : List Task
  scheduled : Bool
  deriving DecidableEq, Repr

/-- Multi-repository `initial_download`: `check_and_download_master` (via the
API URL) then `check_and_download_release`, unconditionally. -/
def exp_initial_download (owner repo : String) (benv : BranchEnv)
    (renv : RelEnv) (st : RepoState) : RepoState × List String × List Task :=
  let api := get_github_api_url owner repo
  let m := exp_check_and_download_master api "master" benv st.masterState
  let r := check_and_download_release api renv st.releaseState
  (⟨r.state, m.state⟩, m.gets ++ r.gets, [Task.branchSync, Task.releaseSync])

/-- Multi-repository `process_repository`: parse the URL and abort this
repository when the parse failed or either parsed segment is empty
(`if not owner or not repo: return`, an empty string being falsy), before
any directory setup or network request; otherwise run the initial download
iff either version file is absent, then register the daily task for this
repository. -/
def process_repository (benv : BranchEnv) (renv : RelEnv)
    (stOf : String → RepoState) (repo_url : String) : RepoRun :=
  match parse_github_url repo_url with
  | none => ⟨stOf repo_url, [], [], false⟩
  | some (owner, repo) =>
    if owner == "" || repo == "" then ⟨stOf repo_url, [], [], false⟩
    else
      let st := stOf repo_url
      if st.masterState.isNone || st.releaseState.isNone then
        let (st2, gets, tr) := exp_initial_download owner repo benv renv st
        ⟨st2, gets, tr ++ [Task.scheduleDaily], true⟩
      else ⟨st, [], [Task.scheduleDaily], true⟩

/-- Multi-repository `main` over the loaded URL list: each configured
repository is processed in turn, independently. -/
def main_multi (benv : BranchEnv) (renv : RelEnv) (stOf : String → RepoState)
    (urls : List String) : List (String × RepoRun) :=
  urls.map (fun u => (u, process_repository benv renv stOf u))

/-! ### Helper lemmas -/

/-- When no asset download hits a local write error, the loop issues a GET
for every asset, in the order listed, and no exception escapes it. -/
theorem download_release_assets_total (dl : Asset → DLOutcome)
    (assets : List Asset) (hw : ∀ a ∈ assets, dl a ≠ .writeError) :
    (download_release_assets dl assets).1
        = assets.map (·.browser_download_url)
    ∧ (download_release_assets dl assets).2.2 = none := by
  induction assets with
  | nil => simp [download_release_assets]
  | cons a rest ih =>
    have ha := hw a (by simp)
    have ihr := ih (fun x hx => hw x (List.mem_cons_of_mem _ hx))
    cases hda : dl a with
    | ok => simp [download_release_assets, hda, ihr.1, ihr.2]
    | requestError => simp [download_release_assets, hda, ihr.1, ihr.2]
    | writeError => exact absurd hda ha

/-- The two-name unpacking raises `ValueError` exactly when the stripped
comma-split content does not have two parts. -/
theorem parseStatePair_eq_none (c : String)
    (h : (stripSplitComma c).length ≠ 2) : parseStatePair c = none := by
  rcases hsplit : stripSplitComma c with _ | ⟨a, t⟩
  · simp [parseStatePair, hsplit]
  · rcases t with _ | ⟨b, t2⟩
    · simp [parseStatePair, hsplit]
    · rcases t2 with _ | ⟨d, t3⟩
      · exact absurd (by rw [hsplit]; rfl) h
      · simp [parseStatePair, hsplit]

/-- A URL whose path has fewer than two segments is rejected by
`parse_github_url`. -/
theorem parse_github_url_eq_none (u : String)
    (h : (pathParts u).length < 2) : parse_github_url u = none := by
  unfold parse_github_url
  rcases hp : pathParts u with _ | ⟨a, _ | ⟨b, rest⟩⟩ <;> simp_all
  omega

/-! ### Claim theorems -/

/-- C1: when the release version file exists and its stored (tag, commit)
pair equals the fetched release's `(tag_name, target_commitish)`, the sync
issues only the metadata GET, downloads no asset, and leaves the version
file content byte-identical (so repeated calls under an unchanged remote
are idempotent). -/
theorem release_sync_unchanged_idempotent (api_url : String) (env : RelEnv)
    (rel : Release) (c : String) (hf : env.fetch = .ok rel)
    (hp : parseStatePair c = some (rel.tag_name, rel.target_commitish)) :
    (check_and_download_release api_url env (some c)).written = []
    ∧ (check_and_download_release api_url env (some c)).gets
        = [api_url ++ "/releases/latest"]
    ∧ (check_and_download_release api_url env (some c)).state = some c
    ∧ (check_and_download_release api_url env (some c)).res = .unchanged := by
  simp [check_and_download_release, releaseSyncBody, hf, hp]

/-- Witness for C1 at a concrete unchanged remote. -/
theorem release_sync_unchanged_idempotent_witness :
    (check_and_download_release "https://api.github.com/repos/O/R"
        ⟨.ok ⟨"v1.0", "abc123", [⟨"https://dl/a", "a"⟩]⟩, fun _ => .ok⟩
        (some "v1.0,abc123")).written = []
    ∧ (check_and_download_release "https://api.github.com/repos/O/R"
        ⟨.ok ⟨"v1.0", "abc123", [⟨"https://dl/a", "a"⟩]⟩, fun _ => .ok⟩
        (some "v1.0,abc123")).gets
        = ["https://api.github.com/repos/O/R" ++ "/releases/latest"]
    ∧ (check_and_download_release "https://api.github.com/repos/O/R"
        ⟨.ok ⟨"v1.0", "abc123", [⟨"https://dl/a", "a"⟩]⟩, fun _ => .ok⟩
        (some "v1.0,abc123")).state = some "v1.0,abc123"
    ∧ (check_and_download_release "https://api.github.com/repos/O/R"
        ⟨.ok ⟨"v1.0", "abc123", [⟨"https://dl/a", "a"⟩]⟩, fun _ => .ok⟩
        (some "v1.0,abc123")).res = .unchanged :=
  release_sync_unchanged_idempotent "https://api.github.com/repos/O/R"
    ⟨.ok ⟨"v1.0", "abc123", [⟨"https://dl/a", "a"⟩]⟩, fun _ => .ok⟩
    ⟨"v1.0", "abc123", [⟨"https://dl/a", "a"⟩]⟩ "v1.0,abc123"
    rfl (by decide)

/-- C2: the already-downloaded check compares the whole pair, never one
field alone: whenever the stored pair differs from the fetched
`(tag_name, target_commitish)` in either component, every asset is
downloaded and the version file is rewritten with the new pair. -/
theorem release_sync_pair_comparison (api_url : String) (env : RelEnv)
    (rel : Release) (c v h : String) (hf : env.fetch = .ok rel)
    (hp : parseStatePair c = some (v, h))
    (hne : v ≠ rel.tag_name ∨ h ≠ rel.target_commitish)
    (hw : ∀ a ∈ rel.assets, env.dl a ≠ .writeError) :
    (check_and_download_release api_url env (some c)).gets
        = (api_url ++ "/releases/latest")
          :: rel.assets.map (·.browser_download_url)
    ∧ (check_and_download_release api_url env (some c)).state
        = some (release_state_content rel.tag_name rel.target_commitish)
    ∧ (check_and_download_release api_url env (some c)).res = .updated := by
  have hchk : (v == rel.tag_name && h == rel.target_commitish) = false := by
    rcases hne with h1 | h1 <;> simp [h1]
  have hdl := download_release_assets_total env.dl rel.assets hw
  simp [check_and_download_release, releaseSyncBody, hf, hp, hchk,
    hdl.1, hdl.2]

/-- Witness for C2: stored tag matches but the commit differs. -/
theorem release_sync_pair_comparison_witness :
    (check_and_download_release "https://api.github.com/repos/O/R"
        ⟨.ok ⟨"v1.0", "def456", [⟨"https://dl/a", "a"⟩]⟩, fun _ => .ok⟩
        (some "v1.0,abc123")).gets
        = ("https://api.github.com/repos/O/R" ++ "/releases/latest")
          :: ([⟨"https://dl/a", "a"⟩] : List Asset).map
              (·.browser_download_url)
    ∧ (check_and_download_release "https://api.github.com/repos/O/R"
        ⟨.ok ⟨"v1.0", "def456", [⟨"https://dl/a", "a"⟩]⟩, fun _ => .ok⟩
        (some "v1.0,abc123")).state
        = some (release_state_content "v1.0" "def456")
    ∧ (check_and_download_release "https://api.github.com/repos/O/R"
        ⟨.ok ⟨"v1.0", "def456", [⟨"https://dl/a", "a"⟩]⟩, fun _ => .ok⟩
        (some "v1.0,abc123")).res = .updated :=
  release_sync_pair_comparison "https://api.github.com/repos/O/R"
    ⟨.ok ⟨"v1.0", "def456", [⟨"https://dl/a", "a"⟩]⟩, fun _ => .ok⟩
    ⟨"v1.0", "def456", [⟨"https://dl/a", "a"⟩]⟩ "v1.0,abc123" "v1.0" "abc123"
    rfl (by decide) (Or.inr (by decide)) (by decide)

/-- C3: a release sync that proceeds to download (no version file, or the
stored pair differs) issues a GET for every listed asset in order even when
some of those requests fail (a `RequestException` is caught inside
`download_file`), and after the loop the version file is overwritten with
the new pair regardless of how many asset downloads failed. -/
theorem release_sync_best_effort_downloads (api_url : String) (env : RelEnv)
    (rel : Release) (st : Option String) (hf : env.fetch = .ok rel)
    (hgo : st = none ∨ ∃ c v h, st = some c ∧ parseStatePair c = some (v, h)
        ∧ (v ≠ rel.tag_name ∨ h ≠ rel.target_commitish))
    (hw : ∀ a ∈ rel.assets, env.dl a ≠ .writeError) :
    (check_and_download_release api_url env st).gets
        = (api_url ++ "/releases/latest")
          :: rel.assets.map (·.browser_download_url)
    ∧ (check_and_download_release api_url env st).state
        = some (release_state_content rel.tag_name rel.target_commitish)
    ∧ (check_and_download_release api_url env st).res = .updated := by
  have hdl := download_release_assets_total env.dl rel.assets hw
  rcases hgo with hst | ⟨c, v, h, hst, hp, hne⟩
  · subst hst
    simp [check_and_download_release, releaseSyncBody, hf, hdl.1, hdl.2]
  · subst hst
    have hchk : (v == rel.tag_name && h == rel.target_commitish) = false := by
      rcases hne with h1 | h1 <;> simp [h1]
    simp [check_and_download_release, releaseSyncBody, hf, hp, hchk,
      hdl.1, hdl.2]

/-- Witness for C3: two assets, the first download request fails. -/
theorem release_sync_best_effort_downloads_witness :
    (check_and_download_release "A"
        ⟨.ok ⟨"v2", "c2", [⟨"u1", "a1"⟩, ⟨"u2", "a2"⟩]⟩,
          fun a => if a.name = "a1" then .requestError else .ok⟩
        none).gets
        = ("A" ++ "/releases/latest")
          :: ([⟨"u1", "a1"⟩, ⟨"u2", "a2"⟩] : List Asset).map
              (·.browser_download_url)
    ∧ (check_and_download_release "A"
        ⟨.ok ⟨"v2", "c2", [⟨"u1", "a1"⟩, ⟨"u2", "a2"⟩]⟩,
          fun a => if a.name = "a1" then .requestError else .ok⟩
        none).state = some (release_state_content "v2" "c2")
    ∧ (check_and_download_release "A"
        ⟨.ok ⟨"v2", "c2", [⟨"u1", "a1"⟩, ⟨"u2", "a2"⟩]⟩,
          fun a => if a.name = "a1" then .requestError else .ok⟩
        none).res = .updated :=
  release_sync_best_effort_downloads "A"
    ⟨.ok ⟨"v2", "c2", [⟨"u1", "a1"⟩, ⟨"u2", "a2"⟩]⟩,
      fun a => if a.name = "a1" then .requestError else .ok⟩
    ⟨"v2", "c2", [⟨"u1", "a1"⟩, ⟨"u2", "a2"⟩]⟩ none
    rfl (Or.inl rfl) (by decide)

/-- C4: a failed metadata fetch (non-2xx `HTTPError` or a network-level
failure) on either sync leaves the sync `failed`, the state file
unmodified, nothing downloaded, and no exception escaping to the caller. -/
theorem metadata_fetch_failure_no_state_change (api_url owner repo : String)
    (renv : RelEnv) (benv : BranchEnv) (str stm : Option String)
    (hr : renv.fetch = .httpError ∨ renv.fetch = .networkError)
    (hb : benv.fetch = .httpError ∨ benv.fetch = .networkError) :
    ((check_and_download_release api_url renv str).res = .failed
    ∧ (check_and_download_release api_url renv str).state = str
    ∧ (check_and_download_release api_url renv str).written = []
    ∧ (check_and_download_release api_url renv str).raised = false)
    ∧ ((check_and_download_master owner repo benv stm).res = .failed
    ∧ (check_and_download_master owner repo benv stm).state = stm
    ∧ (check_and_download_master owner repo benv stm).raised = false) := by
  constructor
  · rcases hr with h1 | h1 <;>
      simp [check_and_download_release, releaseSyncBody, h1,
        PyExn.isHTTPError, PyExn.isException]
  · rcases hb with h1 | h1 <;>
      simp [check_and_download_master, masterSyncCore, masterSyncBody, h1,
        PyExn.isHTTPError, PyExn.isException]

/-- Witness for C4: an HTTP error on the release fetch and a network error
on the commit fetch. -/
theorem metadata_fetch_failure_no_state_change_witness :
    ((check_and_download_release "A" ⟨.httpError, fun _ => .ok⟩
        (some "v1.0,abc123")).res = .failed
    ∧ (check_and_download_release "A" ⟨.httpError, fun _ => .ok⟩
        (some "v1.0,abc123")).state = some "v1.0,abc123"
    ∧ (check_and_download_release "A" ⟨.httpError, fun _ => .ok⟩
        (some "v1.0,abc123")).written = []
    ∧ (check_and_download_release "A" ⟨.httpError, fun _ => .ok⟩
        (some "v1.0,abc123")).raised = false)
    ∧ ((check_and_download_master "O" "R" ⟨.networkError, .ok⟩
        (some "master,s1")).res = .failed
    ∧ (check_and_download_master "O" "R" ⟨.networkError, .ok⟩
        (some "master,s1")).state = some "master,s1"
    ∧ (check_and_download_master "O" "R" ⟨.networkError, .ok⟩
        (some "master,s1")).raised = false) :=
  metadata_fetch_failure_no_state_change "A" "O" "R"
    ⟨.httpError, fun _ => .ok⟩ ⟨.networkError, .ok⟩
    (some "v1.0,abc123") (some "master,s1") (Or.inl rfl) (Or.inr rfl)

/-- C5: once a new commit SHA is detected, the branch version file is
overwritten with `(branch, sha)` even when the archive GET fails with a
request error (swallowed inside `download_file`); the state fails to
advance only when the download call itself raises, e.g. a local write
error — and that error is still caught by the sync's handler. -/
theorem branch_state_advance_policy (api_url branch zipUrl : String)
    (env : BranchEnv) (c : Commit) (st : Option String)
    (hf : env.fetch = .ok c)
    (hdet : st = none ∨ ∃ s x y, st = some s ∧ parseStatePair s = some (x, y)
        ∧ y ≠ c.sha) :
    (env.dl ≠ .writeError →
        (masterSyncCore api_url branch zipUrl env st).state
          = some (branch_state_content branch c.sha)
      ∧ (masterSyncCore api_url branch zipUrl env st).gets
          = [api_url ++ "/commits/" ++ branch, zipUrl])
    ∧ (env.dl = .writeError →
        (masterSyncCore api_url branch zipUrl env st).state = st
      ∧ (masterSyncCore api_url branch zipUrl env st).raised = false) := by
  rcases hdet with hst | ⟨s, x, y, hst, hp, hne⟩
  · subst hst
    cases hdl : env.dl <;>
      simp [masterSyncCore, masterSyncBody, hf, hdl,
        PyExn.isHTTPError, PyExn.isException]
  · subst hst
    have hchk : (y == c.sha) = false := beq_eq_false_iff_ne.mpr hne
    cases hdl : env.dl <;>
      simp [masterSyncCore, masterSyncBody, hf, hdl, hp, hchk,
        PyExn.isHTTPError, PyExn.isException]

/-- Witness for C5: stored SHA differs and the archive GET fails with a
request error; the state still advances. -/
theorem branch_state_advance_policy_witness :
    ((⟨.ok ⟨"s2"⟩, .requestError⟩ : BranchEnv).dl ≠ .writeError →
        (masterSyncCore "A" "master" "Z" ⟨.ok ⟨"s2"⟩, .requestError⟩
          (some "master,s1")).state
          = some (branch_state_content "master" "s2")
      ∧ (masterSyncCore "A" "master" "Z" ⟨.ok ⟨"s2"⟩, .requestError⟩
          (some "master,s1")).gets = ["A" ++ "/commits/" ++ "master", "Z"])
    ∧ ((⟨.ok ⟨"s2"⟩, .requestError⟩ : BranchEnv).dl = .writeError →
        (masterSyncCore "A" "master" "Z" ⟨.ok ⟨"s2"⟩, .requestError⟩
          (some "master,s1")).state = some "master,s1"
      ∧ (masterSyncCore "A" "master" "Z" ⟨.ok ⟨"s2"⟩, .requestError⟩
          (some "master,s1")).raised = false) :=
  branch_state_advance_policy "A" "master" "Z" ⟨.ok ⟨"s2"⟩, .requestError⟩
    ⟨"s2"⟩ (some "master,s1") rfl
    (Or.inr ⟨"master,s1", "master", "s1", rfl, by decide, by decide⟩)

/-- C6: the single-repository variant builds the claimed archive URL against
the web host, and both variants use the `{repo}_{branch}.zip` file name;
but the multi-repository variant parses the API URL (path
`/repos/{owner}/{repo}`) to rebuild owner and repo, so its archive URL is
`https://github.com/repos/{owner}/...`, not
`https://github.com/{owner}/{repo}/...`. -/
theorem exp_archive_url_built_from_api_path :
    master_zip_url "GreemDev" "Ryujinx"
      = "https://github.com/GreemDev/Ryujinx/archive/refs/heads/master.zip"
    ∧ master_zip_name "Ryujinx" "master" = "Ryujinx_master.zip"
    ∧ parse_github_url (get_github_api_url "GreemDev" "Ryujinx")
      = some ("repos", "GreemDev")
    ∧ exp_master_zip_url (get_github_api_url "GreemDev" "Ryujinx") "master"
      = "https://github.com/repos/GreemDev/archive/refs/heads/master.zip"
    ∧ exp_master_zip_url (get_github_api_url "GreemDev" "Ryujinx") "master"
      ≠ "https://github.com/GreemDev/Ryujinx/archive/refs/heads/master.zip"
      := by decide

/-- C7 counterexample: on a first run with both state files absent, the
orchestration's first sync step is Branch Sync, not Release Sync. -/
theorem first_run_order_counterexample :
    (main_first_run "O" "R" ⟨.httpError, .ok⟩ ⟨.httpError, fun _ => .ok⟩
        ⟨none, none⟩).2
      = [Task.branchSync, Task.releaseSync, Task.scheduleDaily]
    ∧ (main_first_run "O" "R" ⟨.httpError, .ok⟩ ⟨.httpError, fun _ => .ok⟩
        ⟨none, none⟩).2
      ≠ [Task.releaseSync, Task.branchSync, Task.scheduleDaily] := by decide

/-- C7 amended: on first run (state files absent) the orchestration runs
Branch Sync first and then Release Sync, unconditionally, before
registering the daily scheduled task — in both variants. -/
theorem first_run_branch_then_release (owner repo : String)
    (benv : BranchEnv) (renv : RelEnv) (st : RepoState)
    (stOf : String → RepoState) (u o r : String)
    (hm : st.masterState = none) (hr : st.releaseState = none)
    (hu : parse_github_url u = some (o, r))
    (ho : o ≠ "") (hrep : r ≠ "")
    (hm2 : (stOf u).masterState = none) :
    (main_first_run owner repo benv renv st).2
      = [Task.branchSync, Task.releaseSync, Task.scheduleDaily]
    ∧ (process_repository benv renv stOf u).tasks
      = [Task.branchSync, Task.releaseSync, Task.scheduleDaily]
    ∧ (process_repository benv renv stOf u).scheduled = true := by
  have ho2 : (o == "") = false := beq_eq_false_iff_ne.mpr ho
  have hrep2 : (r == "") = false := beq_eq_false_iff_ne.mpr hrep
  refine ⟨?_, ?_, ?_⟩ <;>
    simp [main_first_run, initial_download, process_repository,
      exp_initial_download, hm, hr, hu, ho2, hrep2, hm2]

/-- Witness for the amended C7: fresh state in both variants. -/
theorem first_run_branch_then_release_witness :
    (main_first_run "O" "R" ⟨.httpError, .ok⟩ ⟨.httpError, fun _ => .ok⟩
        ⟨none, none⟩).2
      = [Task.branchSync, Task.releaseSync, Task.scheduleDaily]
    ∧ (process_repository ⟨.httpError, .ok⟩ ⟨.httpError, fun _ => .ok⟩
        (fun _ => ⟨none, none⟩) "https://github.com/a/b").tasks
      = [Task.branchSync, Task.releaseSync, Task.scheduleDaily]
    ∧ (process_repository ⟨.httpError, .ok⟩ ⟨.httpError, fun _ => .ok⟩
        (fun _ => ⟨none, none⟩) "https://github.com/a/b").scheduled
      = true :=
  first_run_branch_then_release "O" "R" ⟨.httpError, .ok⟩
    ⟨.httpError, fun _ => .ok⟩ ⟨none, none⟩ (fun _ => ⟨none, none⟩)
    "https://github.com/a/b" "a" "b" rfl rfl (by decide) (by decide)
    (by decide) rfl

/-- C8 counterexample: successful updates write `tag,commit` resp.
`branch,sha` with no trailing newline, so the persisted content is not
`"tag,commit\n"`. -/
theorem state_write_no_newline_counterexample :
    (check_and_download_release "A"
        ⟨.ok ⟨"v1.1", "def456", []⟩, fun _ => .ok⟩
        (some "v1.0,abc123")).state = some "v1.1,def456"
    ∧ (check_and_download_release "A"
        ⟨.ok ⟨"v1.1", "def456", []⟩, fun _ => .ok⟩
        (some "v1.0,abc123")).state ≠ some "v1.1,def456\n"
    ∧ (masterSyncCore "A" "master" "Z" ⟨.ok ⟨"s2"⟩, .ok⟩
        (some "master,s1")).state = some "master,s2"
    ∧ (masterSyncCore "A" "master" "Z" ⟨.ok ⟨"s2"⟩, .ok⟩
        (some "master,s1")).state ≠ some "master,s2\n" := by decide

/-- Inversion: a release sync body that completed as `updated` wrote the
version file as exactly `tag_name ++ "," ++ target_commitish`. -/
theorem releaseSyncBody_updated_state (api_url : String) (env : RelEnv)
    (st : Option String) (rel : Release) (g w : List String)
    (st2 : Option String) (hf : env.fetch = .ok rel)
    (hb : releaseSyncBody api_url env st = (g, w, st2, .ok .updated)) :
    st2 = some (release_state_content rel.tag_name rel.target_commitish) := by
  rcases hdl : download_release_assets env.dl rel.assets with ⟨g0, w0, e0⟩
  rcases st with _ | c0
  · cases e0 <;> simp [releaseSyncBody, hf, hdl] at hb
    simp_all
  · rcases hp : parseStatePair c0 with _ | ⟨v, h⟩
    · simp [releaseSyncBody, hf, hp] at hb
    · cases hbeq : (v == rel.tag_name && h == rel.target_commitish)
      · cases e0 <;> simp [releaseSyncBody, hf, hp, hbeq, hdl] at hb
        simp_all
      · simp [releaseSyncBody, hf, hp, hbeq] at hb

/-- Inversion: a branch sync body that completed as `updated` wrote the
version file as exactly `branch ++ "," ++ sha`. -/
theorem masterSyncBody_updated_state (api_url branch zipUrl : String)
    (env : BranchEnv) (st : Option String) (c : Commit) (g : List String)
    (st2 : Option String) (hf : env.fetch = .ok c)
    (hb : masterSyncBody api_url branch zipUrl env st
        = (g, st2, .ok .updated)) :
    st2 = some (branch_state_content branch c.sha) := by
  rcases st with _ | c0
  · cases hdl : env.dl <;>
      simp [masterSyncBody, hf, hdl] at hb <;> simp_all
  · rcases hp : parseStatePair c0 with _ | ⟨v, h⟩
    · simp [masterSyncBody, hf, hp] at hb
    · cases hbeq : (h == c.sha)
      · cases hdl : env.dl <;>
          simp [masterSyncBody, hf, hp, hbeq, hdl] at hb <;> simp_all
      · simp [masterSyncBody, hf, hp, hbeq] at hb

/-- C8 amended: every successful state update overwrites the file wholesale
with exactly one comma-separated record and no trailing newline: the
release state as `tag,commit` and the branch state as `branch,sha`. -/
theorem state_update_single_record (api_url branch zipUrl : String)
    (renv : RelEnv) (benv : BranchEnv) (rel : Release) (c : Commit)
    (str stm : Option String)
    (hfr : renv.fetch = .ok rel) (hfb : benv.fetch = .ok c)
    (hru : (check_and_download_release api_url renv str).res = .updated)
    (hbu : (masterSyncCore api_url branch zipUrl benv stm).res = .updated) :
    (check_and_download_release api_url renv str).state
      = some (rel.tag_name ++ "," ++ rel.target_commitish)
    ∧ (masterSyncCore api_url branch zipUrl benv stm).state
      = some (branch ++ "," ++ c.sha) := by
  constructor
  · rcases hbody : releaseSyncBody api_url renv str with ⟨g, w, st2, r⟩
    rcases r with e | r'
    · cases e <;> simp_all [check_and_download_release, hbody,
        PyExn.isHTTPError, PyExn.isException]
    · have hres : r' = .updated := by
        simpa [check_and_download_release, hbody] using hru
      subst hres
      have := releaseSyncBody_updated_state api_url renv str rel g w st2
        hfr hbody
      simp [check_and_download_release, hbody, this, release_state_content]
  · rcases hbody : masterSyncBody api_url branch zipUrl benv stm
      with ⟨g, st2, r⟩
    rcases r with e | r'
    · cases e <;> simp_all [masterSyncCore, hbody,
        PyExn.isHTTPError, PyExn.isException]
    · have hres : r' = .updated := by
        simpa [masterSyncCore, hbody] using hbu
      subst hres
      have := masterSyncBody_updated_state api_url branch zipUrl benv stm c
        g st2 hfb hbody
      simp [masterSyncCore, hbody, this, branch_state_content]

/-- Witness for the amended C8 at concrete updates of both syncs. -/
theorem state_update_single_record_witness :
    (check_and_download_release "A"
        ⟨.ok ⟨"v1.1", "def456", []⟩, fun _ => .ok⟩
        (some "v1.0,abc123")).state = some ("v1.1" ++ "," ++ "def456")
    ∧ (masterSyncCore "A" "master" "Z" ⟨.ok ⟨"s2"⟩, .ok⟩
        (some "master,s1")).state = some ("master" ++ "," ++ "s2") :=
  state_update_single_record "A" "master" "Z"
    ⟨.ok ⟨"v1.1", "def456", []⟩, fun _ => .ok⟩ ⟨.ok ⟨"s2"⟩, .ok⟩
    ⟨"v1.1", "def456", []⟩ ⟨"s2"⟩ (some "v1.0,abc123") (some "master,s1")
    rfl rfl (by decide) (by decide)

/-- C9: a repository URL whose path has fewer than two segments is rejected
with no network request, no sync step and no scheduling for that
repository, its state untouched; and in the multi-repository main loop each
configured URL is processed independently, so the rejection leaves the
processing of every other URL unchanged. -/
theorem malformed_url_rejected (benv : BranchEnv) (renv : RelEnv)
    (stOf : String → RepoState) (u : String) (urls : List String)
    (h : (pathParts u).length < 2) :
    (process_repository benv renv stOf u).gets = []
    ∧ (process_repository benv renv stOf u).tasks = []
    ∧ (process_repository benv renv stOf u).scheduled = false
    ∧ (process_repository benv renv stOf u).state = stOf u
    ∧ main_multi benv renv stOf (u :: urls)
      = (u, process_repository benv renv stOf u)
        :: main_multi benv renv stOf urls := by
  have hp := parse_github_url_eq_none u h
  simp [process_repository, hp, main_multi]

/-- Witness for C9: an owner-only URL ahead of a well-formed one. -/
theorem malformed_url_rejected_witness :
    (process_repository ⟨.httpError, .ok⟩ ⟨.httpError, fun _ => .ok⟩
        (fun _ => ⟨none, none⟩) "https://github.com/onlyowner").gets = []
    ∧ (process_repository ⟨.httpError, .ok⟩ ⟨.httpError, fun _ => .ok⟩
        (fun _ => ⟨none, none⟩) "https://github.com/onlyowner").tasks = []
    ∧ (process_repository ⟨.httpError, .ok⟩ ⟨.httpError, fun _ => .ok⟩
        (fun _ => ⟨none, none⟩) "https://github.com/onlyowner").scheduled
      = false
    ∧ (process_repository ⟨.httpError, .ok⟩ ⟨.httpError, fun _ => .ok⟩
        (fun _ => ⟨none, none⟩) "https://github.com/onlyowner").state
      = (fun _ => (⟨none, none⟩ : RepoState)) "https://github.com/onlyowner"
    ∧ main_multi ⟨.httpError, .ok⟩ ⟨.httpError, fun _ => .ok⟩
        (fun _ => ⟨none, none⟩)
        ("https://github.com/onlyowner" :: ["https://github.com/a/b"])
      = ("https://github.com/onlyowner",
          process_repository ⟨.httpError, .ok⟩ ⟨.httpError, fun _ => .ok⟩
            (fun _ => ⟨none, none⟩) "https://github.com/onlyowner")
        :: main_multi ⟨.httpError, .ok⟩ ⟨.httpError, fun _ => .ok⟩
            (fun _ => ⟨none, none⟩) ["https://github.com/a/b"] :=
  malformed_url_rejected ⟨.httpError, .ok⟩ ⟨.httpError, fun _ => .ok⟩
    (fun _ => ⟨none, none⟩) "https://github.com/onlyowner"
    ["https://github.com/a/b"] (by decide)

/-- C10: a malformed persisted state file — stripped content without
exactly one comma, the empty file included — makes the two-name unpacking
raise a `ValueError` that the generic handler catches: neither sync raises
to its caller, neither downloads anything for that tick, and the state
file's prior content is left unchanged. -/
theorem malformed_state_file_caught (api_url owner repo : String)
    (renv : RelEnv) (benv : BranchEnv) (c : String)
    (h : (stripSplitComma c).length ≠ 2) :
    (check_and_download_release api_url renv (some c)).raised = false
    ∧ (check_and_download_release api_url renv (some c)).state = some c
    ∧ (check_and_download_release api_url renv (some c)).written = []
    ∧ (check_and_download_release api_url renv (some c)).gets
      = [api_url ++ "/releases/latest"]
    ∧ (check_and_download_master owner repo benv (some c)).raised = false
    ∧ (check_and_download_master owner repo benv (some c)).state = some c
    ∧ (check_and_download_master owner repo benv (some c)).gets
      = [get_github_api_url owner repo ++ "/commits/" ++ "master"] := by
  have hp := parseStatePair_eq_none c h
  refine ⟨?_, ?_, ?_, ?_, ?_, ?_, ?_⟩ <;>
    rcases hf : renv.fetch with rel | _ | _ <;>
    rcases hfb : benv.fetch with cm | _ | _ <;>
    simp [check_and_download_release, releaseSyncBody,
      check_and_download_master, masterSyncCore, masterSyncBody,
      hf, hfb, hp, PyExn.isHTTPError, PyExn.isException]

/-- Witness for C10: a state file holding `garbage` (no comma), with both
metadata fetches succeeding. -/
theorem malformed_state_file_caught_witness :
    (check_and_download_release "A" ⟨.ok ⟨"v1", "c1", []⟩, fun _ => .ok⟩
        (some "garbage")).raised = false
    ∧ (check_and_download_release "A" ⟨.ok ⟨"v1", "c1", []⟩, fun _ => .ok⟩
        (some "garbage")).state = some "garbage"
    ∧ (check_and_download_release "A" ⟨.ok ⟨"v1", "c1", []⟩, fun _ => .ok⟩
        (some "garbage")).written = []
    ∧ (check_and_download_release "A" ⟨.ok ⟨"v1", "c1", []⟩, fun _ => .ok⟩
        (some "garbage")).gets = ["A" ++ "/releases/latest"]
    ∧ (check_and_download_master "O" "R" ⟨.ok ⟨"s1"⟩, .ok⟩
        (some "garbage")).raised = false
    ∧ (check_and_download_master "O" "R" ⟨.ok ⟨"s1"⟩, .ok⟩
        (some "garbage")).state = some "garbage"
    ∧ (check_and_download_master "O" "R" ⟨.ok ⟨"s1"⟩, .ok⟩
        (some "garbage")).gets
      = [get_github_api_url "O" "R" ++ "/commits/" ++ "master"] :=
  malformed_state_file_caught "A" "O" "R"
    ⟨.ok ⟨"v1", "c1", []⟩, fun _ => .ok⟩ ⟨.ok ⟨"s1"⟩, .ok⟩ "garbage"
    (by decide)

end GithubDownloader
